import Mathlib

/-!
Verification of the `ChatArea` component (src/components/chat-area.tsx).

The component is a pure rendering function of its props.  We embed it
shallowly: the props record mirrors `ChatAreaProps`, the rendered output is a
`ChatAreaView` whose transcript is the ordered list of children of the
scrollable messages area, and the composer records the bindings of the form,
textarea and submit button.  Callback props are abstract values of type
parameters `σ` (form-submit handler) and `χ` (input-change handler), since the
component only forwards them.  Browser behaviour needed by the interaction
claims (a form whose only submitter is a disabled button cannot be submitted;
a change event on a controlled textarea fires its handler once with the new
value) is modelled by `dispatch`.
-/

/-- A chat message, mirroring the fields of the imported `Message` type that
the component reads (`id`, `role`, `content`).  The imported type allows
roles beyond "user"/"assistant" (e.g. "system", "data"), so `role` is an
open string, as in the source. -/
structure Message where
  id : String
  role : String
  content : String
deriving DecidableEq

/-- Props of the component, mirroring `interface ChatAreaProps` (lines 28-34). -/
structure ChatAreaProps (σ χ : Type) where
  messages : List Message
  input : String
  handleInputChange : χ
  handleSubmit : σ
  isLoading : Bool

/-- One child of the scrollable messages area: the empty-state block
(lines 56-63), a message bubble (lines 67-92), or the loading indicator
(lines 97-111).  A bubble records its React key, whether it is right-aligned
(`justify-end` vs `justify-start`), whether the row is reversed
(`flex-row-reverse`), the avatar fallback text, whether it uses the primary
(reversed) colour scheme (`bg-primary text-primary-foreground` vs `bg-muted`),
whether the text is rendered with `whitespace-pre-wrap`, and the text itself. -/
inductive TranscriptNode where
  | emptyState (title subtitle : String)
  | bubble (key : String) (justifyEnd rowReverse : Bool) (avatarFallback : String)
      (primaryScheme preWrap : Bool) (text : String)
  | loadingIndicator
deriving DecidableEq

/-- The composer region (lines 118-130): the form's submit handler, the
textarea's name, value and change handler, and the submit button's
disabled state. -/
structure ComposerView (σ χ : Type) where
  formOnSubmit : σ
  textareaName : String
  textareaValue : String
  textareaOnChange : χ
  submitDisabled : Bool

/-- The rendered component: header title (line 47), transcript children
(lines 53-113), composer (lines 118-130) and the disclaimer line (131-133). -/
structure ChatAreaView (σ χ : Type) where
  headerTitle : String
  transcript : List TranscriptNode
  composer : ComposerView σ χ
  disclaimer : String

/-- JavaScript whitespace as stripped by `String.prototype.trim`: the full
ECMAScript WhiteSpace production (TAB, VT, FF, SPACE, NBSP, ZWNBSP and every
Space_Separator code point: U+1680, U+2000-U+200A, U+202F, U+205F, U+3000)
together with the LineTerminator production (LF, CR, U+2028, U+2029). -/
def jsWhitespace (c : Char) : Bool :=
  c == ' ' || c == '\t' || c == '\n' || c == '\r' || c == '\x0B' || c == '\x0C' ||
    c == '\u00A0' || c == '\uFEFF' || c == '\u1680' ||
    c == '\u2000' || c == '\u2001' || c == '\u2002' || c == '\u2003' ||
    c == '\u2004' || c == '\u2005' || c == '\u2006' || c == '\u2007' ||
    c == '\u2008' || c == '\u2009' || c == '\u200A' ||
    c == '\u2028' || c == '\u2029' || c == '\u202F' || c == '\u205F' || c == '\u3000'

/-- JavaScript `s.trim()`: drop leading and trailing whitespace. -/
def jsTrim (s : String) : String :=
  String.mk (((s.data.dropWhile jsWhitespace).reverse.dropWhile jsWhitespace).reverse)

/-- `messages[messages.length - 1]?.role === 'user'` of line 96: optional
chaining yields `false` when the list is empty. -/
def lastRoleIsUser (messages : List Message) : Bool :=
  match messages.getLast? with
  | some m => m.role == "user"
  | none => false

/-- The guard of the loading indicator, line 96:
`isLoading && messages.length > 0 && messages[messages.length - 1]?.role === 'user'`. -/
def showLoading (messages : List Message) (isLoading : Bool) : Bool :=
  isLoading && decide (0 < messages.length) && lastRoleIsUser messages

/-- Rendering of one message (lines 66-93): alignment, row order, avatar
fallback and colour scheme all switch on `message.role === "user"`; the text
is `message.content`, wrapped with `whitespace-pre-wrap` (line 89). -/
def renderMessage (m : Message) : TranscriptNode :=
  TranscriptNode.bubble m.id (m.role == "user") (m.role == "user")
    (if m.role == "user" then "U" else "AI") (m.role == "user") true m.content

/-- The children of the messages area (lines 53-113): the empty-state block
when `messages.length === 0`, otherwise one bubble per message in order,
followed by the loading indicator when its guard holds. -/
def transcriptOf (messages : List Message) (isLoading : Bool) : List TranscriptNode :=
  (if messages.length == 0 then
    [TranscriptNode.emptyState "How can I help you today?"
      "Ask me anything! I can help with coding, explanations, creative writing, and more."]
  else
    messages.map renderMessage) ++
  (if showLoading messages isLoading then [TranscriptNode.loadingIndicator] else [])

/-- The submit button's `disabled={isLoading || !input.trim()}` (line 127):
`!s` is true exactly when the trimmed string is empty. -/
def submitDisabled (input : String) (isLoading : Bool) : Bool :=
  isLoading || jsTrim input == ""

/-- The whole render function (lines 40-137). -/
def ChatArea {σ χ : Type} (p : ChatAreaProps σ χ) : ChatAreaView σ χ :=
  { headerTitle := "AI Assistant"
    transcript := transcriptOf p.messages p.isLoading
    composer :=
      { formOnSubmit := p.handleSubmit
        textareaName := "prompt"
        textareaValue := p.input
        textareaOnChange := p.handleInputChange
        submitDisabled := submitDisabled p.input p.isLoading }
    disclaimer := "AI Assistant may produce inaccurate information. Verify important information." }

/-- A user-interface event reaching the rendered view: submission of the
composer form, or an edit of the textarea to a new value. -/
inductive UIEvent where
  | submitForm
  | editDraft (newValue : String)
deriving DecidableEq

/-- An outbound callback invocation observed by the caller: the form-submit
handler, or the change handler together with the new value carried by the
change event. -/
inductive Invocation (σ χ : Type) where
  | submit (handler : σ)
  | inputChange (handler : χ) (newValue : String)
deriving DecidableEq

/-- Host (DOM) semantics of events on the rendered view: a form whose only
submitter is a disabled submit button cannot be submitted, so submission
reaches the form's handler exactly when the button is enabled; a change event
on the textarea fires its handler once, with the new value.  The component
itself adds no further guard (line 118 attaches `handleSubmit` directly). -/
def dispatch {σ χ : Type} (v : ChatAreaView σ χ) : UIEvent → List (Invocation σ χ)
  | UIEvent.submitForm =>
      if v.composer.submitDisabled then [] else [Invocation.submit v.composer.formOnSubmit]
  | UIEvent.editDraft s => [Invocation.inputChange v.composer.textareaOnChange s]

/-- One event-handling step of the component seen from the caller: the
component body (lines 40-137) contains no assignment to any prop — it only
reads `messages`, `input` and `isLoading` — so the caller-owned data after the
step is the props unchanged, and the only outbound effects are the callback
invocations produced by `dispatch`. -/
def step {σ χ : Type} (p : ChatAreaProps σ χ) (e : UIEvent) :
    ChatAreaProps σ χ × List (Invocation σ χ) :=
  (p, dispatch (ChatArea p) e)

/-- Whether an invocation uses one of the caller-supplied handlers. -/
def usesSuppliedHandlers {σ χ : Type} (p : ChatAreaProps σ χ) :
    Invocation σ χ → Prop
  | Invocation.submit h => h = p.handleSubmit
  | Invocation.inputChange h _ => h = p.handleInputChange

/-- The key and text of a bubble node, `none` for the other nodes. -/
def bubbleView : TranscriptNode → Option (String × String)
  | TranscriptNode.bubble key _ _ _ _ _ text => some (key, text)
  | _ => none

/-- Whether a node, if it is a bubble, preserves literal whitespace. -/
def bubblePreWrap : TranscriptNode → Bool
  | TranscriptNode.bubble _ _ _ _ _ pre _ => pre
  | _ => true

/-- The presentation fields of a bubble node (alignment, row order, avatar
fallback, colour scheme), `none` for the other nodes. -/
def bubbleStyle : TranscriptNode → Option (Bool × Bool × String × Bool)
  | TranscriptNode.bubble _ j r a p _ _ => some (j, r, a, p)
  | _ => none

theorem loadingIndicator_not_mem_map (l : List Message) :
    TranscriptNode.loadingIndicator ∉ l.map renderMessage := by
  simp [List.mem_map, renderMessage]

/-- The loading indicator is in the transcript exactly when its guard holds. -/
theorem loading_indicator_mem_transcriptOf (messages : List Message) (isLoading : Bool) :
    TranscriptNode.loadingIndicator ∈ transcriptOf messages isLoading ↔
      showLoading messages isLoading = true := by
  unfold transcriptOf
  rcases messages with _ | ⟨m, ms⟩
  · simp [showLoading]
  · cases h : showLoading (m :: ms) isLoading <;>
      simp [h, List.mem_map, renderMessage]

/-- The guard of line 96 in spec form. -/
theorem showLoading_eq_true_iff (messages : List Message) (isLoading : Bool) :
    showLoading messages isLoading = true ↔
      (isLoading = true ∧ messages ≠ [] ∧
        (messages.getLast?).map Message.role = some "user") := by
  unfold showLoading lastRoleIsUser
  rcases messages with _ | ⟨m, ms⟩
  · simp
  · rw [List.getLast?_eq_getLast (m :: ms) (by simp)]
    simp

/-- C1: the transcript contains the loading indicator iff `isLoading` is true,
the message sequence is non-empty, and the last message's role is "user". -/
theorem loading_indicator_iff {σ χ : Type} (p : ChatAreaProps σ χ) :
    TranscriptNode.loadingIndicator ∈ (ChatArea p).transcript ↔
      (p.isLoading = true ∧ p.messages ≠ [] ∧
        (p.messages.getLast?).map Message.role = some "user") :=
  (loading_indicator_mem_transcriptOf p.messages p.isLoading).trans
    (showLoading_eq_true_iff p.messages p.isLoading)

/-- C3: with an empty message sequence the transcript is exactly the static
empty-state greeting — no bubble and no loading indicator, whatever the
loading flag and the draft. -/
theorem empty_messages_empty_state {σ χ : Type} (p : ChatAreaProps σ χ)
    (h : p.messages = []) :
    (ChatArea p).transcript =
      [TranscriptNode.emptyState "How can I help you today?"
        "Ask me anything! I can help with coding, explanations, creative writing, and more."] := by
  unfold ChatArea transcriptOf showLoading
  rw [h]
  simp

theorem empty_messages_empty_state_witness :
    (ChatArea (⟨[], "draft", 0, 0, true⟩ : ChatAreaProps Nat Nat)).transcript =
      [TranscriptNode.emptyState "How can I help you today?"
        "Ask me anything! I can help with coding, explanations, creative writing, and more."] :=
  empty_messages_empty_state _ rfl

theorem jsTrim_eq_empty_of_all_whitespace (s : String)
    (h : ∀ c ∈ s.data, jsWhitespace c = true) : jsTrim s = "" := by
  unfold jsTrim
  have h1 : s.data.dropWhile jsWhitespace = [] := by
    rw [List.dropWhile_eq_nil_iff]
    exact h
  rw [h1]
  rfl

theorem mem_dropWhile_of_not (c : Char) (l : List Char) (hc : c ∈ l)
    (hw : jsWhitespace c = false) : c ∈ l.dropWhile jsWhitespace := by
  induction l with
  | nil => exact absurd hc (List.not_mem_nil c)
  | cons a as ih =>
    rw [List.dropWhile_cons]
    by_cases hpa : jsWhitespace a = true
    · rw [if_pos hpa]
      rcases List.mem_cons.mp hc with h | h
      · subst h
        rw [hw] at hpa
        exact absurd hpa (by simp)
      · exact ih h
    · rw [if_neg hpa]
      exact hc

theorem jsTrim_ne_empty_of_exists (s : String) (c : Char)
    (hc : c ∈ s.data) (hw : jsWhitespace c = false) : jsTrim s ≠ "" := by
  unfold jsTrim
  intro he
  have hdata : ((s.data.dropWhile jsWhitespace).reverse.dropWhile jsWhitespace).reverse = [] := by
    simpa using congrArg String.data he
  have h1 : c ∈ s.data.dropWhile jsWhitespace := mem_dropWhile_of_not c _ hc hw
  have h2 : c ∈ (s.data.dropWhile jsWhitespace).reverse := List.mem_reverse.mpr h1
  have h3 : c ∈ (s.data.dropWhile jsWhitespace).reverse.dropWhile jsWhitespace :=
    mem_dropWhile_of_not c _ h2 hw
  rw [List.reverse_eq_nil_iff] at hdata
  rw [hdata] at h3
  exact absurd h3 (List.not_mem_nil c)

/-- C2: the submit control is disabled iff `isLoading` is true or the trimmed
draft is empty; in particular a whitespace-only draft disables it whatever the
loading flag, and a draft with non-whitespace content with `isLoading = false`
leaves it enabled. -/
theorem submit_disabled_iff {σ χ : Type} (p : ChatAreaProps σ χ) :
    ((ChatArea p).composer.submitDisabled = true ↔
      (p.isLoading = true ∨ jsTrim p.input = ""))
    ∧ ((∀ c ∈ p.input.data, jsWhitespace c = true) →
        (ChatArea p).composer.submitDisabled = true)
    ∧ ((∃ c ∈ p.input.data, jsWhitespace c = false) → p.isLoading = false →
        (ChatArea p).composer.submitDisabled = false) := by
  refine ⟨?_, ?_, ?_⟩
  · show submitDisabled p.input p.isLoading = true ↔ _
    unfold submitDisabled
    simp
  · intro h
    show submitDisabled p.input p.isLoading = true
    unfold submitDisabled
    simp [jsTrim_eq_empty_of_all_whitespace p.input h]
  · rintro ⟨c, hc, hw⟩ hl
    show submitDisabled p.input p.isLoading = false
    unfold submitDisabled
    simp [hl, jsTrim_ne_empty_of_exists p.input c hc hw]

theorem submit_disabled_iff_witness :
    (ChatArea (⟨[], " \t", 0, 0, false⟩ : ChatAreaProps Nat Nat)).composer.submitDisabled = true
    ∧ (ChatArea (⟨[], " hi", 0, 0, false⟩ : ChatAreaProps Nat Nat)).composer.submitDisabled
        = false :=
  ⟨(submit_disabled_iff _).2.1 (by decide),
   (submit_disabled_iff _).2.2 ⟨'h', by decide, by decide⟩ rfl⟩

theorem bubbleView_renderMessage (m : Message) :
    bubbleView (renderMessage m) = some (m.id, m.content) := rfl

theorem filterMap_bubbleView_map (l : List Message) :
    (l.map renderMessage).filterMap bubbleView = l.map (fun m => (m.id, m.content)) := by
  induction l with
  | nil => rfl
  | cons m ms ih => simp [ih, bubbleView_renderMessage]

/-- C4: for a non-empty message sequence the transcript's bubbles are exactly
one per message, in order, keyed by the message's id and carrying its content
verbatim; every bubble preserves literal whitespace; and when the loading
indicator is present the transcript is the bubbles followed by it. -/
theorem transcript_bubbles {σ χ : Type} (p : ChatAreaProps σ χ)
    (h : p.messages ≠ []) :
    ((ChatArea p).transcript.filterMap bubbleView =
        p.messages.map (fun m => (m.id, m.content)))
    ∧ (∀ n ∈ (ChatArea p).transcript, bubblePreWrap n = true)
    ∧ (TranscriptNode.loadingIndicator ∈ (ChatArea p).transcript →
        (ChatArea p).transcript =
          p.messages.map renderMessage ++ [TranscriptNode.loadingIndicator]) := by
  have hlen : (p.messages.length == 0) = false := by
    simp [List.length_eq_zero, h]
  have ht : (ChatArea p).transcript =
      p.messages.map renderMessage ++
        (if showLoading p.messages p.isLoading then [TranscriptNode.loadingIndicator]
          else []) := by
    show transcriptOf p.messages p.isLoading = _
    unfold transcriptOf
    rw [hlen]
    rfl
  refine ⟨?_, ?_, ?_⟩
  · rw [ht, List.filterMap_append, filterMap_bubbleView_map]
    cases hs : showLoading p.messages p.isLoading <;> simp [bubbleView]
  · intro n hn
    rw [ht] at hn
    rcases List.mem_append.mp hn with h1 | h1
    · obtain ⟨m, _, rfl⟩ := List.mem_map.mp h1
      rfl
    · cases hs : showLoading p.messages p.isLoading
      · rw [hs] at h1; simp at h1
      · rw [hs] at h1
        simp at h1
        subst h1
        rfl
  · intro hmem
    rw [ht] at hmem ⊢
    cases hs : showLoading p.messages p.isLoading
    · rw [hs] at hmem
      simp [renderMessage] at hmem
    · simp

theorem transcript_bubbles_witness :
    (ChatArea (⟨[⟨"m1", "user", "a\nb"⟩], "", 0, 0, true⟩ : ChatAreaProps Nat Nat)).transcript
      = [(⟨"m1", "user", "a\nb"⟩ : Message)].map renderMessage
          ++ [TranscriptNode.loadingIndicator] :=
  (transcript_bubbles _ (by decide)).2.2 (by decide)

/-- C5: a "user" message renders right-aligned with reversed row order, the
primary colour scheme and a "U" avatar fallback; any other message renders
left-aligned with the muted scheme and an "AI" avatar fallback. -/
theorem renderMessage_role_presentation (m : Message) :
    (m.role = "user" →
      renderMessage m = TranscriptNode.bubble m.id true true "U" true true m.content)
    ∧ (m.role ≠ "user" →
      renderMessage m = TranscriptNode.bubble m.id false false "AI" false true m.content) := by
  constructor
  · intro h
    unfold renderMessage
    simp [h]
  · intro h
    have hb : (m.role == "user") = false := beq_eq_false_iff_ne.mpr h
    unfold renderMessage
    simp [hb]

theorem renderMessage_role_presentation_witness :
    renderMessage ⟨"u1", "user", "hi"⟩ = TranscriptNode.bubble "u1" true true "U" true true "hi"
    ∧ renderMessage ⟨"a1", "assistant", "yo"⟩
        = TranscriptNode.bubble "a1" false false "AI" false true "yo" :=
  ⟨(renderMessage_role_presentation _).1 rfl,
   (renderMessage_role_presentation _).2 (by decide)⟩

/-- C6: `handleSubmit` is attached directly and unguarded to the composer
form, and is invoked only by a form-submission event and only while the
submit control is enabled. -/
theorem handleSubmit_only_on_submit {σ χ : Type} (p : ChatAreaProps σ χ) :
    (ChatArea p).composer.formOnSubmit = p.handleSubmit
    ∧ ∀ e : UIEvent, Invocation.submit p.handleSubmit ∈ dispatch (ChatArea p) e →
        e = UIEvent.submitForm ∧ (ChatArea p).composer.submitDisabled = false := by
  refine ⟨rfl, ?_⟩
  intro e he
  cases e with
  | submitForm =>
    cases hd : (ChatArea p).composer.submitDisabled
    · exact ⟨rfl, rfl⟩
    · simp only [dispatch, hd] at he
      simp at he
  | editDraft s =>
    simp only [dispatch] at he
    simp at he

theorem handleSubmit_only_on_submit_witness :
    UIEvent.submitForm = UIEvent.submitForm ∧
      (ChatArea (⟨[], "hello", 3, 7, false⟩ : ChatAreaProps Nat Nat)).composer.submitDisabled
        = false :=
  (handleSubmit_only_on_submit _).2 UIEvent.submitForm (by decide)

/-- C7: the textarea is controlled — its displayed value is exactly the
`input` prop — and an edit event invokes `handleInputChange` exactly once,
with the event carrying the new value. -/
theorem controlled_input {σ χ : Type} (p : ChatAreaProps σ χ) :
    (ChatArea p).composer.textareaValue = p.input
    ∧ ∀ s : String, dispatch (ChatArea p) (UIEvent.editDraft s) =
        [Invocation.inputChange p.handleInputChange s] :=
  ⟨rfl, fun _ => rfl⟩

/-- C8: rendering is a deterministic, stateless function of the props: two
renders with equal prop fields produce the identical output tree. -/
theorem render_deterministic {σ χ : Type} (p q : ChatAreaProps σ χ)
    (h1 : p.messages = q.messages) (h2 : p.input = q.input)
    (h3 : p.handleInputChange = q.handleInputChange)
    (h4 : p.handleSubmit = q.handleSubmit) (h5 : p.isLoading = q.isLoading) :
    ChatArea p = ChatArea q := by
  obtain ⟨pm, pi, pc, ps, pl⟩ := p
  obtain ⟨qm, qi, qc, qs, ql⟩ := q
  dsimp only at h1 h2 h3 h4 h5
  subst h1
  subst h2
  subst h3
  subst h4
  subst h5
  rfl

theorem render_deterministic_witness :
    ChatArea (⟨[], "w", 1, 2, false⟩ : ChatAreaProps Nat Nat) =
      ChatArea (⟨[], "w", 1, 2, false⟩ : ChatAreaProps Nat Nat) :=
  render_deterministic _ _ rfl rfl rfl rfl rfl

/-- C9: handling any event leaves the caller-owned props — the message
sequence and the draft string — unchanged, and every outbound effect is an
invocation of a caller-supplied callback. -/
theorem render_preserves_props {σ χ : Type} (p : ChatAreaProps σ χ) (e : UIEvent) :
    (step p e).1.messages = p.messages
    ∧ (step p e).1.input = p.input
    ∧ (step p e).1 = p
    ∧ ∀ inv ∈ (step p e).2, usesSuppliedHandlers p inv := by
  refine ⟨rfl, rfl, rfl, ?_⟩
  intro inv hinv
  cases e with
  | submitForm =>
    dsimp only [step, dispatch] at hinv
    split at hinv
    · simp at hinv
    · simp at hinv
      subst hinv
      rfl
  | editDraft s =>
    dsimp only [step, dispatch] at hinv
    simp at hinv
    subst hinv
    rfl

theorem render_preserves_props_witness :
    (step (⟨[], "q", 4, 9, false⟩ : ChatAreaProps Nat Nat) UIEvent.submitForm).1 =
      (⟨[], "q", 4, 9, false⟩ : ChatAreaProps Nat Nat)
    ∧ usesSuppliedHandlers (⟨[], "q", 4, 9, false⟩ : ChatAreaProps Nat Nat)
        (Invocation.submit 9) :=
  ⟨(render_preserves_props _ UIEvent.submitForm).2.2.1,
   (render_preserves_props _ UIEvent.submitForm).2.2.2 _ (by decide)⟩

/-- C10: every message whose role is not "user" — including roles such as
"system" or "data" — gets the assistant presentation, and the presentation
depends only on whether the role equals "user". -/
theorem nonuser_role_assistant_presentation (m : Message) :
    (m.role ≠ "user" →
      renderMessage m = TranscriptNode.bubble m.id false false "AI" false true m.content)
    ∧ (∀ m2 : Message, (m.role == "user") = (m2.role == "user") →
        bubbleStyle (renderMessage m) = bubbleStyle (renderMessage m2)) := by
  constructor
  · intro h
    have hb : (m.role == "user") = false := beq_eq_false_iff_ne.mpr h
    unfold renderMessage
    simp [hb]
  · intro m2 h
    simp only [renderMessage, bubbleStyle]
    rw [h]

theorem nonuser_role_assistant_presentation_witness :
    renderMessage ⟨"s1", "system", "sys"⟩
        = TranscriptNode.bubble "s1" false false "AI" false true "sys"
    ∧ bubbleStyle (renderMessage ⟨"s1", "system", "sys"⟩)
        = bubbleStyle (renderMessage ⟨"d1", "data", "dat"⟩) :=
  ⟨(nonuser_role_assistant_presentation _).1 (by decide),
   (nonuser_role_assistant_presentation _).2 _ (by decide)⟩
